import Mathlib

/-!
Shallow embedding of two modules of the hopsworks-api Python client:
`python/hopsworks/usage.py` (usage telemetry decorator) and
`python/hopsworks/core/opensearch_api.py` (OpenSearch config builder),
with theorems settling the specification claims about them.

Python strings are modelled as `List Char`; Python `None`-or-string
values as `Option (List Char)`; exceptions as the `Except` error branch,
carrying the value of `str(e)`. External effects (the random draw, the
outcome of the telemetry POST, library-provided values such as
`uuid.uuid4().hex`, `hashlib.md5` and `furl`) are passed in as explicit
parameters, so that each embedded function is a pure function of the
source code's control flow over them.
-/

namespace Hopsworks

/-- Python `str` values in `usage.py` are modelled as lists of characters. -/
abbrev Str := List Char

/-- Python truthiness of a `None`-or-`str` value: `None` and `""` are falsy. -/
def pyTruthy : Option Str → Bool
  | none => false
  | some s => !s.isEmpty

/-- Python `str.lower()` on the `List Char` model. -/
def pyLower (s : Str) : Str := s.map Char.toLower

namespace Usage

/-- A Python function object, as far as `usage.py` reads it: its
`__module__` and `__name__` attributes. -/
structure Method where
  module : Str
  name : Str
  deriving DecidableEq

/-- `MethodCounter._get_method_name`: `m.__module__ + m.__name__`
(direct concatenation, no separator). -/
def method_key (m : Method) : Str := m.module ++ m.name

/-- `MethodCounter`: its dict `method_counts` is modelled by its lookup
function with the `.get(s, 0)` default already applied. -/
structure MethodCounter where
  method_counts : Str → Nat

/-- `MethodCounter.add`: increment the count stored under the method's key. -/
def MethodCounter.add (mc : MethodCounter) (m : Method) : MethodCounter :=
  ⟨fun s => if s = method_key m then mc.method_counts s + 1 else mc.method_counts s⟩

/-- `MethodCounter.get_count`: `self.method_counts.get(s, 0)`. -/
def MethodCounter.get_count (mc : MethodCounter) (m : Method) : Nat :=
  mc.method_counts (method_key m)

/-- `MethodCounter.should_sample`. The pseudo-random draw `random.random()`
(a value in `[0,1)`) is passed in as the rational `r`; Python's literals
`0.1`, `0.01`, `0.001` are the exact rationals `1/10`, `1/100`, `1/1000`. -/
def MethodCounter.should_sample (mc : MethodCounter) (m : Method) (r : ℚ) : Bool :=
  if mc.get_count m < 100 then true
  else if mc.get_count m < 1000 then decide (r < 1/10)
  else if mc.get_count m < 10000 then decide (r < 1/100)
  else decide (r < 1/1000)

end Usage

end Hopsworks

namespace Hopsworks.Usage

/-- The module-level flag `_is_enabled`:
`os.getenv("ENABLE_HOPSWORKS_USAGE", default="true").lower() == "true"`,
as a function of the value of the environment variable (`none` = absent). -/
def _is_enabled (env_var : Option Str) : Bool :=
  pyLower (env_var.getD "true".data) == "true".data

/-- `_hash_string`: if the input is truthy, return the md5 hex digest of its
utf-8 encoding; the `else` branch is the bare expression `""` with no
`return`, so Python returns `None` on falsy input. The digest function of
`hashlib` is passed in as `md5hexdigest`. -/
def _hash_string (md5hexdigest : Str → Str) (input_string : Option Str) : Option Str :=
  if pyTruthy input_string then some (md5hexdigest (input_string.getD []))
  else none

/-- The value of the Python local `exception` in `method_logger.wrapper`
after the inner try/except: `None` if the call returned, `str(e)` if it
raised `e`. -/
def exceptionOf : Except Str α → Option Str
  | .ok _ => none
  | .error e => some e

/-- The cached environment-attribute values read while assembling
`log_data` (each a pass-through from an `EnvironmentAttribute` getter). -/
structure EnvVals where
  user_id : Str
  datetime : Str
  backend_version : Option Str
  platform : Str
  python_version : Str
  hsml_version : Str
  hsfs_version : Str
  hopsworks_version : Str

/-- The `log_data` dict built inside `method_logger.wrapper`. -/
structure LogData where
  user_id : Str
  datetime : Str
  backend_hostname : Option Str
  backend_version : Option Str
  platform : Str
  python_version : Str
  hsml_version : Str
  hsfs_version : Str
  hopsworks_version : Str
  method_name : Str
  module_name : Str
  arguments : Str
  execution_time : Nat
  num_call : Nat
  last_error : Option Str
  stack_trace : Option Str

/-- The ambient state and external outcomes one call of a wrapped method
observes: the method counter, the pseudo-random draw consumed by
`should_sample` (if consulted), the outcome of the telemetry POST
(`none` = `requests.post` succeeds, `some e` = raises `e`), the cached
environment attributes, the module global `_backend_hostname`, the md5
digest function, and the stringified arguments / measured time / stack
trace the wrapper formats. -/
structure TelemetryCtx where
  counter : MethodCounter
  r : ℚ
  send_outcome : Option Str
  env : EnvVals
  backend_hostname : Option Str
  md5hexdigest : Str → Str
  arguments : Str
  execution_time : Nat
  stack_trace : Str

/-- The observable result of one call of the (wrapped or original)
method: the outcome the caller sees, the counter afterwards, the
assembled `log_data` (if any), and whether the POST was attempted. -/
structure CallResult (α : Type) where
  outcome : Except Str α
  counter : MethodCounter
  log : Option LogData
  sent : Bool

/-- The `log_data` dict, field by field, as assembled in the `finally`
block after `_method_counter.add(func)` produced `counter1`. -/
def assemble_log (m : Method) (exception : Option Str) (counter1 : MethodCounter)
    (ctx : TelemetryCtx) : LogData :=
  { user_id := ctx.env.user_id
    datetime := ctx.env.datetime
    backend_hostname := _hash_string ctx.md5hexdigest ctx.backend_hostname
    backend_version := ctx.env.backend_version
    platform := ctx.env.platform
    python_version := ctx.env.python_version
    hsml_version := ctx.env.hsml_version
    hsfs_version := ctx.env.hsfs_version
    hopsworks_version := ctx.env.hopsworks_version
    method_name := m.name
    module_name := m.module
    arguments := ctx.arguments
    execution_time := ctx.execution_time
    num_call := counter1.get_count m
    last_error := if pyTruthy exception then exception else none
    stack_trace := if pyTruthy exception then some ctx.stack_trace else none }

/-- `method_logger.wrapper`: run the wrapped function (its outcome is
`fo`), then the `finally` block increments the counter, assembles
`log_data` and sends it when `exception or should_sample` holds. The
inner `except Exception as e: raise e` re-raises any telemetry error, and
a raise inside `finally` replaces the pending return or exception, so a
failed POST turns the outcome into the POST's error. -/
def wrapper (m : Method) (fo : Except Str α) (ctx : TelemetryCtx) : CallResult α :=
  let counter1 := ctx.counter.add m
  let log_data := assemble_log m (exceptionOf fo) counter1 ctx
  if pyTruthy (exceptionOf fo) || counter1.should_sample m ctx.r then
    match ctx.send_outcome with
    | none => ⟨fo, counter1, some log_data, true⟩
    | some e => ⟨Except.error e, counter1, some log_data, true⟩
  else
    ⟨fo, counter1, some log_data, false⟩

/-- Calling the original, undecorated function: its outcome, with no
counter update, no log record and no POST. -/
def liftFunc (fo : Except Str α) : TelemetryCtx → CallResult α :=
  fun ctx => ⟨fo, ctx.counter, none, false⟩

/-- `method_logger`: if the enable flag is off, return `func` itself;
otherwise return the wrapping closure. -/
def method_logger (enabled : Bool) (m : Method) (fo : Except Str α) :
    TelemetryCtx → CallResult α :=
  if enabled then wrapper m fo else liftFunc fo

/-- In every branch of the wrapper, `log_data` is assembled the same way. -/
theorem wrapper_log (m : Method) (fo : Except Str α) (ctx : TelemetryCtx) :
    (wrapper m fo ctx).log =
      some (assemble_log m (exceptionOf fo) (ctx.counter.add m) ctx) := by
  simp only [wrapper]
  split
  · split <;> rfl
  · rfl

/-- The POST is attempted exactly when `exception or should_sample` holds. -/
theorem wrapper_sent (m : Method) (fo : Except Str α) (ctx : TelemetryCtx) :
    (wrapper m fo ctx).sent =
      (pyTruthy (exceptionOf fo) || (ctx.counter.add m).should_sample m ctx.r) := by
  simp only [wrapper]
  split
  · split <;> simp_all
  · simp_all

/-- Claim C2: `MethodCounter.should_sample(m)` returns `True` when the
recorded call count for `m` is below 100; otherwise it returns `True`
exactly when the pseudo-random draw `r` satisfies `r < 0.1` for count
below 1000, `r < 0.01` for count below 10000, and `r < 0.001` for any
larger count. -/
theorem should_sample_spec (mc : MethodCounter) (m : Method) (r : ℚ) :
    (mc.get_count m < 100 → mc.should_sample m r = true) ∧
    (100 ≤ mc.get_count m → mc.get_count m < 1000 →
      (mc.should_sample m r = true ↔ r < 1/10)) ∧
    (1000 ≤ mc.get_count m → mc.get_count m < 10000 →
      (mc.should_sample m r = true ↔ r < 1/100)) ∧
    (10000 ≤ mc.get_count m →
      (mc.should_sample m r = true ↔ r < 1/1000)) := by
  unfold MethodCounter.should_sample
  refine ⟨fun h => by simp [h], fun h1 h2 => ?_, fun h1 h2 => ?_, fun h1 => ?_⟩
  · rw [if_neg (by omega), if_pos h2]
    simp
  · rw [if_neg (by omega), if_neg (by omega), if_pos h2]
    simp
  · rw [if_neg (by omega), if_neg (by omega), if_neg (by omega)]
    simp

/-- Witness for C2: at recorded count 50 sampling always happens; at
count 500 the draw 1/20 is sampled (since 1/20 < 1/10) while 1/2 is not;
at count 20000 the draw 1/2000 is sampled. -/
theorem should_sample_spec_witness :
    (MethodCounter.mk (fun _ => 50)).should_sample ⟨[], []⟩ (1/2) = true ∧
    (MethodCounter.mk (fun _ => 500)).should_sample ⟨[], []⟩ (1/20) = true ∧
    (MethodCounter.mk (fun _ => 500)).should_sample ⟨[], []⟩ (1/2) ≠ true ∧
    (MethodCounter.mk (fun _ => 20000)).should_sample ⟨[], []⟩ (1/2000) = true := by
  refine ⟨?_, ?_, ?_, ?_⟩
  · exact (should_sample_spec ⟨fun _ => 50⟩ ⟨[], []⟩ (1/2)).1 (by norm_num [MethodCounter.get_count])
  · exact ((should_sample_spec ⟨fun _ => 500⟩ ⟨[], []⟩ (1/20)).2.1
      (by norm_num [MethodCounter.get_count]) (by norm_num [MethodCounter.get_count])).mpr
      (by norm_num)
  · intro h
    exact absurd (((should_sample_spec ⟨fun _ => 500⟩ ⟨[], []⟩ (1/2)).2.1
      (by norm_num [MethodCounter.get_count]) (by norm_num [MethodCounter.get_count])).mp h)
      (by norm_num)
  · exact ((should_sample_spec ⟨fun _ => 20000⟩ ⟨[], []⟩ (1/2000)).2.2.2
      (by norm_num [MethodCounter.get_count])).mpr (by norm_num)

/-- If two methods share a counter key, adding one is seen by the other's count. -/
theorem get_count_add_of_key_eq (mc : MethodCounter) {m1 m2 : Method}
    (h : method_key m1 = method_key m2) :
    (mc.add m1).get_count m2 = mc.get_count m1 + 1 := by
  unfold MethodCounter.add MethodCounter.get_count
  rw [← h]
  simp

/-- If two methods share a counter key, their recorded counts agree. -/
theorem get_count_of_key_eq (mc : MethodCounter) {m1 m2 : Method}
    (h : method_key m1 = method_key m2) :
    mc.get_count m1 = mc.get_count m2 := by
  unfold MethodCounter.get_count
  rw [h]

/-- If two methods share a counter key, their sampling decisions agree. -/
theorem should_sample_of_key_eq (mc : MethodCounter) {m1 m2 : Method}
    (h : method_key m1 = method_key m2) (r : ℚ) :
    mc.should_sample m1 r = mc.should_sample m2 r := by
  unfold MethodCounter.should_sample
  rw [get_count_of_key_eq mc h]

/-- Claim C10: the per-method counter key is the module name concatenated
directly with the method name, so two distinct (module, method) pairs can
have the same key and then share one call count and one sampling decision. -/
theorem method_key_collision :
    (∀ m : Method, method_key m = m.module ++ m.name) ∧
    ∃ m1 m2 : Method, m1 ≠ m2 ∧ method_key m1 = method_key m2 ∧
      ∀ mc : MethodCounter,
        (mc.add m1).get_count m2 = mc.get_count m1 + 1 ∧
        ∀ r : ℚ, mc.should_sample m1 r = mc.should_sample m2 r := by
  have hk : method_key (⟨"ab".data, "c".data⟩ : Method) =
      method_key (⟨"a".data, "bc".data⟩ : Method) := by decide
  exact ⟨fun m => rfl, ⟨"ab".data, "c".data⟩, ⟨"a".data, "bc".data⟩, by decide, hk,
    fun mc => ⟨get_count_add_of_key_eq mc hk, fun r => should_sample_of_key_eq mc hk r⟩⟩

/-- A concrete set of environment-attribute values, for concrete runs. -/
def envVals0 : EnvVals :=
  { user_id := [], datetime := [], backend_version := none, platform := [],
    python_version := [], hsml_version := [], hsfs_version := [], hopsworks_version := [] }

/-- A concrete telemetry context: every method already counted `counts`
times, pseudo-random draw `r`, POST outcome `so`. -/
def ctxOf (counts : Nat) (r : ℚ) (so : Option Str) : TelemetryCtx :=
  { counter := ⟨fun _ => counts⟩, r := r, send_outcome := so,
    env := envVals0, backend_hostname := none, md5hexdigest := fun _ => [],
    arguments := [], execution_time := 0, stack_trace := [] }

/-- Claim C1 is violated by the code (`code_bug`): on a call whose wrapped
function returns normally (here `0`, at call count 0, hence sampled) and
whose telemetry POST raises `ConnectionError`, the internal error is NOT
swallowed: the `except` block around log assembly/sending does `raise e`
(under a comment reading `pass`), a raise inside `finally` replaces the
pending return, and the caller sees the telemetry error instead of `0`. -/
theorem telemetry_error_propagates :
    (wrapper ⟨[], []⟩ (Except.ok (0 : Nat)) (ctxOf 0 0 (some "ConnectionError".data))).sent
        = true ∧
    (wrapper ⟨[], []⟩ (Except.ok (0 : Nat)) (ctxOf 0 0 (some "ConnectionError".data))).outcome
        = Except.error "ConnectionError".data ∧
    (wrapper ⟨[], []⟩ (Except.ok (0 : Nat)) (ctxOf 0 0 (some "ConnectionError".data))).outcome
        ≠ Except.ok 0 := by
  refine ⟨rfl, rfl, fun h => ?_⟩
  have h2 : (wrapper ⟨[], []⟩ (Except.ok (0 : Nat))
      (ctxOf 0 0 (some "ConnectionError".data))).outcome =
      Except.error "ConnectionError".data := rfl
  rw [h2] at h
  exact Except.noConfusion h

/-- Counterexample to claim C3. First conjunct: a wrapped call that
raises an exception whose `str` is empty (e.g. `raise ValueError()`), at
recorded call count 9999 (so the count reaches 10000) with draw 1/2:
`exception = str(e)` is falsy, the `or` falls through to the sampling
draw, `1/2 < 0.001` fails, and the record is NOT sent although the call
raised. Second conjunct: a raising call whose POST fails does not
re-raise the original message either: the caller sees the POST's error. -/
theorem error_call_not_sampled_cex :
    ((wrapper ⟨[], []⟩ (Except.error ([] : Str) : Except Str Nat)
        (ctxOf 9999 (1/2) none)).sent = false) ∧
    ((wrapper ⟨[], []⟩ (Except.error "boom2".data : Except Str Nat)
        (ctxOf 0 0 (some "SendFail".data))).outcome = Except.error "SendFail".data) := by
  constructor
  · rw [wrapper_sent]
    norm_num [pyTruthy, exceptionOf, ctxOf, MethodCounter.add, MethodCounter.get_count,
      MethodCounter.should_sample, method_key]
  · rfl

/-- Claim C3 as amended: for every wrapped call raising an exception whose
string representation is non-empty, the POST is attempted regardless of
the call count (the `or` short-circuits past the sampling draw), the
record's `last_error` is that message, and if the POST succeeds the same
exception is re-raised to the caller. -/
theorem error_call_always_sampled (α : Type) (m : Method) (msg : Str) (hmsg : msg ≠ [])
    (ctx : TelemetryCtx) :
    ((wrapper m (Except.error msg : Except Str α) ctx).sent = true) ∧
    ((wrapper m (Except.error msg : Except Str α) ctx).log.map LogData.last_error =
      some (some msg)) ∧
    (ctx.send_outcome = none →
      (wrapper m (Except.error msg : Except Str α) ctx).outcome = Except.error msg) := by
  have ht0 : pyTruthy (some msg) = true := by
    cases msg with
    | nil => exact absurd rfl hmsg
    | cons c cs => rfl
  have ht : pyTruthy (exceptionOf (Except.error msg : Except Str α)) = true := ht0
  refine ⟨?_, ?_, ?_⟩
  · simp only [wrapper, ht, Bool.true_or, if_true]
    cases ctx.send_outcome <;> rfl
  · rw [wrapper_log]
    simp only [Option.map_some', Option.some.injEq]
    simp [assemble_log, exceptionOf, ht0]
  · intro hs
    simp only [wrapper, ht, Bool.true_or, if_true, hs]

/-- Witness for C3 (amended): the exception message `boom` at call count
9999 with draw 1/2 is sent anyway, recorded as `last_error`, and
re-raised. -/
theorem error_call_always_sampled_witness :
    ((wrapper ⟨[], []⟩ (Except.error "boom".data : Except Str Nat)
        (ctxOf 9999 (1/2) none)).sent = true) ∧
    ((wrapper ⟨[], []⟩ (Except.error "boom".data : Except Str Nat)
        (ctxOf 9999 (1/2) none)).log.map LogData.last_error = some (some "boom".data)) ∧
    ((ctxOf 9999 (1/2) none).send_outcome = none →
      (wrapper ⟨[], []⟩ (Except.error "boom".data : Except Str Nat)
        (ctxOf 9999 (1/2) none)).outcome = Except.error "boom".data) :=
  error_call_always_sampled Nat ⟨[], []⟩ "boom".data (by decide) (ctxOf 9999 (1/2) none)

/-- Claim C5: the enable flag defaults to true when the environment
variable is absent, and whenever it evaluates to false, `method_logger`
returns the original function unmodified, so no counter update, no log
record and no POST happen on any invocation. -/
theorem method_logger_disabled :
    _is_enabled none = true ∧
    ∀ env_var : Option Str, _is_enabled env_var = false →
      ∀ (α : Type) (m : Method) (fo : Except Str α),
        method_logger (_is_enabled env_var) m fo = liftFunc fo ∧
        ∀ ctx : TelemetryCtx,
          (method_logger (_is_enabled env_var) m fo ctx).counter = ctx.counter ∧
          (method_logger (_is_enabled env_var) m fo ctx).sent = false ∧
          (method_logger (_is_enabled env_var) m fo ctx).log = none ∧
          (method_logger (_is_enabled env_var) m fo ctx).outcome = fo := by
  refine ⟨by decide, fun env_var h α m fo => ?_⟩
  have hml : method_logger (_is_enabled env_var) m fo = liftFunc fo := by
    unfold method_logger
    rw [h]
    rfl
  exact ⟨hml, fun ctx => by rw [hml]; exact ⟨rfl, rfl, rfl, rfl⟩⟩

/-- Witness for C5: with `ENABLE_HOPSWORKS_USAGE=False` the flag is off
and the decorator is the identity on the function. -/
theorem method_logger_disabled_witness :
    _is_enabled (some "False".data) = false ∧
    method_logger (_is_enabled (some "False".data)) ⟨[], []⟩ (Except.ok (0 : Nat)) =
      liftFunc (Except.ok 0) :=
  ⟨by decide,
    ((method_logger_disabled).2 (some "False".data) (by decide) Nat ⟨[], []⟩ (Except.ok 0)).1⟩

/-- Claim C9: `_hash_string` returns `None` on `None` and on the empty
string (its `else` branch is a bare `""` with no `return`), so before
`init_usage` sets a backend hostname the `backend_hostname` field of
every assembled telemetry record is `None`. -/
theorem hash_string_falsy_gives_none :
    (∀ md5 : Str → Str, _hash_string md5 none = none ∧ _hash_string md5 (some []) = none) ∧
    (∀ (α : Type) (m : Method) (fo : Except Str α) (ctx : TelemetryCtx),
      ctx.backend_hostname = none →
      (wrapper m fo ctx).log.map LogData.backend_hostname = some none) := by
  refine ⟨fun md5 => ⟨rfl, rfl⟩, fun α m fo ctx h => ?_⟩
  rw [wrapper_log]
  simp [assemble_log, h, _hash_string, pyTruthy]

/-- Witness for C9: in a context whose backend hostname global is unset,
a concrete wrapped call assembles a record whose hostname field is
`None`. -/
theorem hash_string_falsy_gives_none_witness :
    (wrapper ⟨[], []⟩ (Except.ok (0 : Nat)) (ctxOf 0 0 none)).log.map LogData.backend_hostname
      = some none :=
  hash_string_falsy_gives_none.2 Nat ⟨[], []⟩ (Except.ok 0) (ctxOf 0 0 none) rfl

/-- Python `str.rstrip()`: drop trailing whitespace. -/
def rstrip (s : Str) : Str := (s.reverse.dropWhile Char.isWhitespace).reverse

/-- The character set of `uuid.uuid4().hex` (lowercase hexadecimal). -/
def isHexDigit (c : Char) : Bool := c ∈ "0123456789abcdef".data

/-- `_generate_user_id`: `uuid.uuid4().hex` is passed in as
`random_uuid_hex`; `.replace('-', '')` removes every hyphen (a no-op on a
hex string) and `[:16]` keeps the first 16 characters. -/
def _generate_user_id (random_uuid_hex : Str) : Str :=
  (random_uuid_hex.filter (fun c => c != '-')).take 16

/-- The contents of `~/.hopsworks/user_id` (`none` = the file does not
exist). -/
structure UserIdFS where
  file : Option Str
  deriving DecidableEq

/-- The observable outcome of one `EnvironmentAttribute.get_user_id`
call: the returned id, the new cached `self._user_id`, the file contents
afterwards, and whether the call opened the file for writing. -/
structure GetUserIdResult where
  ret : Str
  cached : Option Str
  fs : UserIdFS
  wrote : Bool
  deriving DecidableEq

/-- `EnvironmentAttribute.get_user_id`: if `self._user_id` is falsy, read
the id file when it exists (stripping trailing whitespace), otherwise
generate an id and write it; `uuid_hex` is the `uuid.uuid4().hex` that
`_generate_user_id` would consume on this call. -/
def get_user_id (cached : Option Str) (fs : UserIdFS) (uuid_hex : Str) : GetUserIdResult :=
  if pyTruthy cached then ⟨cached.getD [], cached, fs, false⟩
  else
    match fs.file with
    | some content =>
      let uid := rstrip content
      ⟨uid, some uid, fs, false⟩
    | none =>
      let uid := _generate_user_id uuid_hex
      ⟨uid, some uid, ⟨some uid⟩, true⟩

/-- `dropWhile` is the identity when no element satisfies the predicate. -/
theorem dropWhile_eq_self_of_forall {p : Char → Bool} {l : Str}
    (h : ∀ c ∈ l, p c = false) : l.dropWhile p = l := by
  cases l with
  | nil => rfl
  | cons a t =>
    rw [List.dropWhile_cons, h a (by simp)]
    simp

/-- Hexadecimal characters carry no trailing whitespace to strip. -/
theorem rstrip_eq_self_of_hex {s : Str} (h : ∀ c ∈ s, isHexDigit c = true) :
    rstrip s = s := by
  unfold rstrip
  rw [dropWhile_eq_self_of_forall, List.reverse_reverse]
  intro c hc
  have hx := h c (List.mem_reverse.mp hc)
  have hmem : c ∈ "0123456789abcdef".data := by simpa [isHexDigit] using hx
  fin_cases hmem <;> rfl

/-- On a 32-character hex string, `_generate_user_id` yields a
16-character hex string. -/
theorem generate_user_id_spec {uuid : Str} (hlen : uuid.length = 32)
    (hhex : ∀ c ∈ uuid, isHexDigit c = true) :
    (_generate_user_id uuid).length = 16 ∧
    ∀ c ∈ _generate_user_id uuid, isHexDigit c = true := by
  have hfilter : uuid.filter (fun c => c != '-') = uuid := by
    rw [List.filter_eq_self]
    intro a ha
    have hx := hhex a ha
    have hmem : a ∈ "0123456789abcdef".data := by simpa [isHexDigit] using hx
    fin_cases hmem <;> rfl
  unfold _generate_user_id
  rw [hfilter]
  constructor
  · rw [List.length_take, hlen]
    decide
  · intro c hc
    exact hhex c (List.mem_of_mem_take hc)

/-- Claim C4: the first `get_user_id` call (nothing cached, no file)
generates a 16-character hex id from the random UUID and persists it;
every later call (here: a fresh process, nothing cached) reads the file
back and returns the identical id without writing; and no call at all
opens the file for writing when it already exists. -/
theorem user_id_file_never_overwritten (uuid : Str) (hlen : uuid.length = 32)
    (hhex : ∀ c ∈ uuid, isHexDigit c = true) :
    ((get_user_id none ⟨none⟩ uuid).wrote = true ∧
      (get_user_id none ⟨none⟩ uuid).ret.length = 16 ∧
      (∀ c ∈ (get_user_id none ⟨none⟩ uuid).ret, isHexDigit c = true) ∧
      (get_user_id none ⟨none⟩ uuid).fs.file = some (get_user_id none ⟨none⟩ uuid).ret) ∧
    (∀ uuid2 : Str,
      (get_user_id none (get_user_id none ⟨none⟩ uuid).fs uuid2).ret
        = (get_user_id none ⟨none⟩ uuid).ret ∧
      (get_user_id none (get_user_id none ⟨none⟩ uuid).fs uuid2).fs
        = (get_user_id none ⟨none⟩ uuid).fs ∧
      (get_user_id none (get_user_id none ⟨none⟩ uuid).fs uuid2).wrote = false) ∧
    (∀ (cached : Option Str) (fs : UserIdFS) (uuid3 c : Str), fs.file = some c →
      (get_user_id cached fs uuid3).wrote = false ∧
      (get_user_id cached fs uuid3).fs = fs) := by
  obtain ⟨hlen16, hhex16⟩ := generate_user_id_spec hlen hhex
  have hfirst : get_user_id none ⟨none⟩ uuid =
      ⟨_generate_user_id uuid, some (_generate_user_id uuid),
        ⟨some (_generate_user_id uuid)⟩, true⟩ := rfl
  refine ⟨⟨rfl, hlen16, hhex16, rfl⟩, fun uuid2 => ?_, fun cached fs uuid3 c hc => ?_⟩
  · rw [hfirst]
    have hread : get_user_id none ⟨some (_generate_user_id uuid)⟩ uuid2 =
        ⟨rstrip (_generate_user_id uuid), some (rstrip (_generate_user_id uuid)),
          ⟨some (_generate_user_id uuid)⟩, false⟩ := rfl
    rw [hread, rstrip_eq_self_of_hex hhex16]
    exact ⟨rfl, rfl, rfl⟩
  · unfold get_user_id
    split
    · exact ⟨rfl, rfl⟩
    · rw [hc]
      exact ⟨rfl, rfl⟩

/-- Witness for C4: with the concrete UUID hex
`0123456789abcdef0123456789abcdef`, the first call persists a
16-character id and the second call returns it without writing. -/
theorem user_id_file_never_overwritten_witness :
    (get_user_id none ⟨none⟩ "0123456789abcdef0123456789abcdef".data).ret.length = 16 ∧
    (get_user_id none (get_user_id none ⟨none⟩ "0123456789abcdef0123456789abcdef".data).fs
        "ffffffffffffffffffffffffffffffff".data).ret
      = (get_user_id none ⟨none⟩ "0123456789abcdef0123456789abcdef".data).ret ∧
    (get_user_id none (get_user_id none ⟨none⟩ "0123456789abcdef0123456789abcdef".data).fs
        "ffffffffffffffffffffffffffffffff".data).wrote = false := by
  obtain ⟨h1, h2, h3⟩ := user_id_file_never_overwritten
    "0123456789abcdef0123456789abcdef".data (by decide) (by decide)
  exact ⟨h1.2.1, (h2 "ffffffffffffffffffffffffffffffff".data).1,
    (h2 "ffffffffffffffffffffffffffffffff".data).2.2⟩

/-- The observable outcome of one `EnvironmentAttribute.get_backend_version`
call: the returned value, the cached `self._backend_version` afterwards,
and whether each of the two version-query sources was invoked. -/
structure BackendVersionResult where
  ret : Option Str
  cache : Option Str
  queried1 : Bool
  queried2 : Bool
  deriving DecidableEq

/-- `EnvironmentAttribute.get_backend_version`. `cache` is the current
`self._backend_version`; `src1` and `src2` are the outcomes of
`variable_api.VariableApi().get_version("hopsworks")` and of the `hsfs`
fallback on this call (`none` = the query raises, which the `except`
swallows). -/
def get_backend_version (cache : Option Str) (src1 src2 : Option Str) :
    BackendVersionResult :=
  match cache with
  | some v => ⟨some v, some v, false, false⟩
  | none =>
    match src1 with
    | some v => ⟨some v, some v, true, false⟩
    | none =>
      match src2 with
      | some v => ⟨some v, some v, true, true⟩
      | none => ⟨none, none, true, true⟩

/-- Claim C6: the backend version lookup tries the two sources in
sequence, swallowing each failure (a failing first source falls through
to the second); if both fail it returns the unset `None` and caches
nothing, so the very next call consults the sources again; once either
source succeeds the value is cached and any later call returns it
without querying either source. -/
theorem backend_version_retry :
    (∀ (v : Str) (src2 : Option Str),
      get_backend_version none (some v) src2 = ⟨some v, some v, true, false⟩) ∧
    (∀ v : Str, get_backend_version none none (some v) = ⟨some v, some v, true, true⟩) ∧
    (get_backend_version none none none = ⟨none, none, true, true⟩) ∧
    (∀ src1 src2 : Option Str,
      get_backend_version (get_backend_version none none none).cache src1 src2
        = get_backend_version none src1 src2) ∧
    (∀ (v : Str) (src1 src2 : Option Str),
      get_backend_version (some v) src1 src2 = ⟨some v, some v, false, false⟩) :=
  ⟨fun _ _ => rfl, fun _ => rfl, rfl, fun _ _ => rfl, fun _ _ _ => rfl⟩

end Hopsworks.Usage

namespace Hopsworks.OpenSearch

/-- `OpenSearchApi.get_project_index`:
`(self._project_name + "_" + index).lower()`. -/
def get_project_index (project_name index : Str) : Str :=
  pyLower (project_name ++ '_' :: index)

/-- The endpoint URL as the `furl` library parses it: its `host` and
`port` attributes. -/
structure ParsedUrl where
  host : String
  port : Option Nat

/-- One `{"host": ..., "port": ...}` entry of the `hosts` list. -/
structure HostEntry where
  host : String
  port : Option Nat
  deriving DecidableEq

/-- The mapping `get_default_py_config` returns, one field per
`constants.OPENSEARCH_CONFIG` key (`headers` holds one `Authorization`
entry). -/
structure OpenSearchConfig where
  hosts : List HostEntry
  http_compress : Bool
  headers_authorization : String
  use_ssl : Bool
  verify_certs : Bool
  ssl_assert_hostname : Bool
  ca_certs : String
  deriving DecidableEq

/-- The backend's reply to the jwt request, as far as this module reads
it: a JSON object with a `token` field. -/
structure JwtResponse where
  token : String
  deriving DecidableEq

/-- `OpenSearchApi._get_authorization_token`: issue
`GET elastic/jwt/{project_id}` through the REST client and read the
`token` field; an error from `_send_request` propagates. The client's
`_send_request` is passed in as a function of the HTTP verb and the path
segments; its error branch carries whatever the REST layer raises. -/
def _get_authorization_token (project_id : String)
    (send_request : String → List String → Except String JwtResponse) :
    Except String String :=
  match send_request "GET" ["elastic", "jwt", project_id] with
  | .ok resp => .ok resp.token
  | .error e => .error e

/-- `OpenSearchApi.get_default_py_config`: parse the endpoint URL taken
from the environment variable (`opensearch_url`, parsed by the passed-in
`furl`), fetch the bearer token, and assemble the config mapping;
`ca_chain_path` is `client.get_instance()._get_ca_chain_path(...)`. -/
def get_default_py_config (project_id : String)
    (opensearch_url : String) (parse_url : String → ParsedUrl)
    (send_request : String → List String → Except String JwtResponse)
    (ca_chain_path : String) : Except String OpenSearchConfig :=
  let url := parse_url opensearch_url
  match _get_authorization_token project_id send_request with
  | .error e => .error e
  | .ok tok => .ok
    { hosts := [⟨url.host, url.port⟩]
      http_compress := false
      headers_authorization := tok
      use_ssl := true
      verify_certs := true
      ssl_assert_hostname := false
      ca_certs := ca_chain_path }

/-- Claim C8: `get_project_index(i)` lowercases the project name joined
to the index name by an underscore; in particular, on project `MyProj`,
`get_project_index("foo")` is `myproj_foo`. -/
theorem get_project_index_spec :
    (∀ p i : Str, get_project_index p i = pyLower p ++ '_' :: pyLower i) ∧
    get_project_index "MyProj".data "foo".data = "myproj_foo".data := by
  constructor
  · intro p i
    unfold get_project_index pyLower
    rw [List.map_append, List.map_cons]
    have h : Char.toLower '_' = '_' := by decide
    rw [h]
  · decide

/-- Claim C7: when the jwt request succeeds, `get_default_py_config`
returns the mapping whose single hosts entry is the parsed host/port,
compression off, SSL and certificate verification on, hostname assertion
off, the CA bundle path, and the fetched token as the `Authorization`
header; when the jwt request fails, the REST layer's error is returned
unchanged. -/
theorem get_default_py_config_spec (project_id opensearch_url : String)
    (parse_url : String → ParsedUrl)
    (send_request : String → List String → Except String JwtResponse)
    (ca_chain_path : String) :
    (∀ tok : String, send_request "GET" ["elastic", "jwt", project_id] = .ok ⟨tok⟩ →
      get_default_py_config project_id opensearch_url parse_url send_request ca_chain_path
        = .ok { hosts := [⟨(parse_url opensearch_url).host, (parse_url opensearch_url).port⟩]
                http_compress := false
                headers_authorization := tok
                use_ssl := true
                verify_certs := true
                ssl_assert_hostname := false
                ca_certs := ca_chain_path }) ∧
    (∀ e : String, send_request "GET" ["elastic", "jwt", project_id] = .error e →
      get_default_py_config project_id opensearch_url parse_url send_request ca_chain_path
        = .error e) := by
  constructor
  · intro tok h
    unfold get_default_py_config _get_authorization_token
    rw [h]
  · intro e h
    unfold get_default_py_config _get_authorization_token
    rw [h]

/-- Witness for C7: a concrete client whose jwt request returns token
`tok` yields exactly the claimed mapping, and one whose request raises
`RestAPIError` propagates it. -/
theorem get_default_py_config_spec_witness :
    get_default_py_config "119" "https://h:9200" (fun _ => ⟨"h", some 9200⟩)
        (fun _ _ => Except.ok ⟨"tok"⟩) "/tmp/ca" =
      Except.ok { hosts := [⟨"h", some 9200⟩]
                  http_compress := false
                  headers_authorization := "tok"
                  use_ssl := true
                  verify_certs := true
                  ssl_assert_hostname := false
                  ca_certs := "/tmp/ca" } ∧
    get_default_py_config "119" "https://h:9200" (fun _ => ⟨"h", some 9200⟩)
        (fun _ _ => Except.error "RestAPIError") "/tmp/ca" =
      Except.error "RestAPIError" :=
  ⟨(get_default_py_config_spec "119" "https://h:9200" (fun _ => ⟨"h", some 9200⟩)
      (fun _ _ => Except.ok ⟨"tok"⟩) "/tmp/ca").1 "tok" rfl,
    (get_default_py_config_spec "119" "https://h:9200" (fun _ => ⟨"h", some 9200⟩)
      (fun _ _ => Except.error "RestAPIError") "/tmp/ca").2 "RestAPIError" rfl⟩

end Hopsworks.OpenSearch
